import Mathlib

/-!
Verification of the per-operator dispatch table
(aten/src/ATen/core/dispatch/DispatchTable.h).

The header defines two classes:

* KernelFunctionTable: a fixed-size slot map from dispatch keys to kernels,
  with a maintained occupancy counter.
* DispatchTable: per-operator registration policy on top of the slot map,
  with a catch-all slot and a one-shot manually-boxed-kernel retrofit.

The embedding below translates those classes into Lean. Types that the
header only uses through their interface (TensorTypeId, KernelFunction,
FunctionSchema, DispatchKeyExtractor) are not part of the analysed source
and are modelled from the spec, as marked on each such definition.

Fallible operations are embedded in Option: a TORCH_INTERNAL_ASSERT whose
condition fails aborts the process, which the embedding renders as the
result none. Functions whose source contains no assertion always return
some. TORCH_WARN emits a diagnostic and has no effect on state, so it
leaves no trace in the embedding.
-/

/-- Modelled from the spec: the number of dispatch keys is a build-time
constant (TensorTypeId::NumTensorIds); its exact value is not fixed by the
spec, only that the key domain is small, fixed and bounded. The value 16
is an arbitrary representative; no general theorem below depends on it. -/
def numTensorIds : Nat := 16

/-- Modelled from the spec: the reserved sentinel dispatch key
(TensorTypeId::UndefinedTensorId), the distinguished value that must never
be used as storage. It is the first enumerator, hence numerically 0. -/
def undefinedTensorId : Nat := 0

/-- Modelled from the spec: a kernel value is an opaque callable with a
validity predicate, a default invalid state, and a mutator that installs a
manually boxed kernel pointer (the calling-convention retrofit). The
payload field is the opaque identity of the callable; the boxedKernel
field holds the retrofit pointer, modelled as an opaque Nat. -/
structure KernelFunction where
  valid : Bool
  payload : Nat
  boxedKernel : Option Nat
deriving DecidableEq

/-- Modelled from the spec: the validity predicate of a kernel value. -/
def KernelFunction.isValid (k : KernelFunction) : Bool :=
  k.valid

/-- Modelled from the spec: the default invalid/empty kernel state, the
content of an unoccupied slot. -/
def KernelFunction.invalid : KernelFunction :=
  { valid := false, payload := 0, boxedKernel := none }

/-- Modelled from the spec: the kernel-level mutator that installs a
manually boxed kernel (retrofit) pointer on one kernel value. -/
def KernelFunction.setManuallyBoxedKernel_ (k : KernelFunction) (func : Nat) :
    KernelFunction :=
  { k with boxedKernel := some func }

/-- The slot map: an array of numTensorIds kernel slots (represented as a
total function on Nat, of which only indices below numTensorIds are ever
used by the source) together with the occupancy counter kernelCount_. -/
structure KernelFunctionTable where
  kernels_ : Nat → KernelFunction
  kernelCount_ : Nat

/-- The KernelFunctionTable constructor: all slots empty, counter zero. -/
def KernelFunctionTable.new : KernelFunctionTable :=
  { kernels_ := fun _ => KernelFunction.invalid, kernelCount_ := 0 }

inductive SetKernelResult : Type where
  | ADDED_NEW_KERNEL : SetKernelResult
  | OVERWROTE_EXISTING_KERNEL : SetKernelResult
deriving DecidableEq

inductive RemoveKernelIfExistsResult : Type where
  | REMOVED_KERNEL : RemoveKernelIfExistsResult
  | KERNEL_DIDNT_EXIST : RemoveKernelIfExistsResult
deriving DecidableEq

/-- KernelFunctionTable::setKernel. Asserts that the key is not the
undefined sentinel (none on violation); reports whether the slot was
previously occupied; increments the counter only on ADDED_NEW_KERNEL;
stores the kernel unconditionally. -/
def KernelFunctionTable.setKernel (tbl : KernelFunctionTable)
    (dispatchKey : Nat) (kernel : KernelFunction) :
    Option (SetKernelResult × KernelFunctionTable) :=
  if dispatchKey = undefinedTensorId then
    none
  else if (tbl.kernels_ dispatchKey).isValid then
    some (SetKernelResult.OVERWROTE_EXISTING_KERNEL,
      { tbl with kernels_ := Function.update tbl.kernels_ dispatchKey kernel })
  else
    some (SetKernelResult.ADDED_NEW_KERNEL,
      { kernels_ := Function.update tbl.kernels_ dispatchKey kernel,
        kernelCount_ := tbl.kernelCount_ + 1 })

/-- KernelFunctionTable::removeKernelIfExists. The source contains no
assertion on this path, so the embedding always returns some: if the slot
is occupied it decrements the counter and clears the slot, otherwise it is
a no-op. -/
def KernelFunctionTable.removeKernelIfExists (tbl : KernelFunctionTable)
    (dispatchKey : Nat) :
    Option (RemoveKernelIfExistsResult × KernelFunctionTable) :=
  if (tbl.kernels_ dispatchKey).isValid then
    some (RemoveKernelIfExistsResult.REMOVED_KERNEL,
      { kernels_ := Function.update tbl.kernels_ dispatchKey KernelFunction.invalid,
        kernelCount_ := tbl.kernelCount_ - 1 })
  else
    some (RemoveKernelIfExistsResult.KERNEL_DIDNT_EXIST, tbl)

/-- KernelFunctionTable::size, the occupancy counter. -/
def KernelFunctionTable.size (tbl : KernelFunctionTable) : Nat :=
  tbl.kernelCount_

/-- Modelled from the spec: an operator schema supplies the display name
and whatever is needed to build the key-extraction policy; both are opaque
to the table. -/
structure FunctionSchema where
  schemaName : String
  extractorInfo : Nat

/-- The per-operator dispatch table: slot map, catch-all slot, immutable
key-extraction policy (opaque), operator display name, and the optional
manually boxed kernel (retrofit) pointer. -/
structure DispatchTable where
  kernels_ : KernelFunctionTable
  catchallKernel_ : KernelFunction
  dispatchKeyExtractor_ : Nat
  operatorName_ : String
  manuallyBoxedKernel_ : Option Nat

/-- The DispatchTable constructor: derives the name and extractor from the
schema; slot map empty, catch-all invalid, retrofit absent. -/
def DispatchTable.new (schema : FunctionSchema) : DispatchTable :=
  { kernels_ := KernelFunctionTable.new,
    catchallKernel_ := KernelFunction.invalid,
    dispatchKeyExtractor_ := schema.extractorInfo,
    operatorName_ := schema.schemaName,
    manuallyBoxedKernel_ := none }

/-- DispatchTable::setKernel. If manuallyBoxedKernel_ holds a value the
kernel first receives it; then the call delegates to the slot map. An
OVERWROTE_EXISTING_KERNEL result triggers TORCH_WARN, which does not
change state. -/
def DispatchTable.setKernel (t : DispatchTable) (dispatchKey : Nat)
    (kernel : KernelFunction) : Option DispatchTable :=
  match t.kernels_.setKernel dispatchKey
      (match t.manuallyBoxedKernel_ with
        | some func => kernel.setManuallyBoxedKernel_ func
        | none => kernel) with
  | none => none
  | some (_, tbl) => some { t with kernels_ := tbl }

/-- DispatchTable::removeKernelIfExists: delegates to the slot map and
discards the result. -/
def DispatchTable.removeKernelIfExists (t : DispatchTable)
    (dispatchKey : Nat) : Option DispatchTable :=
  match t.kernels_.removeKernelIfExists dispatchKey with
  | none => none
  | some (_, tbl) => some { t with kernels_ := tbl }

/-- DispatchTable::setCatchallKernel. A pre-existing valid catch-all only
triggers TORCH_WARN (no state effect). If manuallyBoxedKernel_ holds a
value the kernel first receives it; then it replaces the catch-all slot. -/
def DispatchTable.setCatchallKernel (t : DispatchTable)
    (kernel : KernelFunction) : Option DispatchTable :=
  some { t with catchallKernel_ :=
    match t.manuallyBoxedKernel_ with
    | some func => kernel.setManuallyBoxedKernel_ func
    | none => kernel }

/-- DispatchTable::removeCatchallKernel. Asserts that a catch-all is
installed (none on violation), then clears the catch-all slot. -/
def DispatchTable.removeCatchallKernel (t : DispatchTable) :
    Option DispatchTable :=
  if t.catchallKernel_.isValid then
    some { t with catchallKernel_ := KernelFunction.invalid }
  else
    none

/-- DispatchTable::isEmpty: no valid catch-all and slot-map size zero. -/
def DispatchTable.isEmpty (t : DispatchTable) : Bool :=
  !t.catchallKernel_.isValid && t.kernels_.size == 0

/-- Modelled from the spec: the textual rendering of a dispatch key in the
diagnostic listing is its numeric value (the spec examples render keys 0,
1, 2, 4 as the digits 0, 1, 2, 4). -/
def tensorTypeIdToString (k : Nat) : String :=
  Nat.repr k

/-- DispatchTable::lookup: the kernel at the slot if occupied, else an
explicit absence (the source returns a pointer or nullptr; the embedding
returns the kernel value or none). -/
def DispatchTable.lookup (t : DispatchTable) (dispatchKey : Nat) :
    Option KernelFunction :=
  if (t.kernels_.kernels_ dispatchKey).isValid then
    some (t.kernels_.kernels_ dispatchKey)
  else
    none

/-- DispatchTable::lookupCatchallKernel: same contract for the catch-all
slot. -/
def DispatchTable.lookupCatchallKernel (t : DispatchTable) :
    Option KernelFunction :=
  if t.catchallKernel_.isValid then some t.catchallKernel_ else none

/-- The final conditional block of DispatchTable::listAllDispatchKeys: if
the catch-all is valid, append the CATCH-ALL marker, with a comma-space
separator when something was already emitted (the Bool component models
the has_kernels flag). -/
def appendCatchallMarker (t : DispatchTable) (acc : String × Bool) :
    String × Bool :=
  if t.catchallKernel_.isValid then
    ((if acc.2 then acc.1 ++ ", " else acc.1) ++ "CATCH-ALL", true)
  else
    acc

/-- DispatchTable::listAllDispatchKeys. The loop over all key indices in
ascending order appends the text of each occupied key, with a comma-space
separator once something has been emitted (tracked by the has_kernels
flag); then the CATCH-ALL marker under the same separator logic; all
between square brackets. -/
def DispatchTable.listAllDispatchKeys (t : DispatchTable) : String :=
  (appendCatchallMarker t
    ((List.range numTensorIds).foldl
      (fun acc k =>
        if (t.kernels_.kernels_ k).isValid then
          ((if acc.2 then acc.1 ++ ", " else acc.1) ++ tensorTypeIdToString k,
            true)
        else
          acc)
      ("[", false))).1 ++ "]"

/-- DispatchTable::setManuallyBoxedKernel_, embedded exactly as written in
the source: it asserts that manuallyBoxedKernel_ holds no value (none on
violation) and then walks every key index, installing func on each
currently valid keyed slot. The source never assigns manuallyBoxedKernel_
and never touches catchallKernel_ in this function; the embedding
reproduces both omissions faithfully. -/
def DispatchTable.setManuallyBoxedKernel_ (t : DispatchTable) (func : Nat) :
    Option DispatchTable :=
  if t.manuallyBoxedKernel_.isSome then
    none
  else
    some { t with kernels_ :=
      { t.kernels_ with kernels_ := fun k =>
          if k < numTensorIds ∧ (t.kernels_.kernels_ k).isValid then
            (t.kernels_.kernels_ k).setManuallyBoxedKernel_ func
          else
            t.kernels_.kernels_ k } }

/-- DispatchTable::operatorName. -/
def DispatchTable.operatorName (t : DispatchTable) : String :=
  t.operatorName_

/-- The number of occupied keyed slots, counted over the key domain. This
is the spec-side notion that the maintained counter kernelCount_ is
claimed to track; it takes the slot assignment of a KernelFunctionTable. -/
def occupiedCount (g : Nat → KernelFunction) : Nat :=
  (List.range numTensorIds).countP fun k => (g k).isValid

/-- Comma-space separated concatenation of a list of strings, following
the spec wording for the diagnostic listing. -/
def commaSeparated : List String → String
  | [] => ""
  | [x] => x
  | x :: y :: xs => x ++ ", " ++ commaSeparated (y :: xs)

/-- The occupied keys of a table in ascending numeric order, as the spec
describes them (every key with an occupied slot, ascending). -/
def specOccupiedKeys (t : DispatchTable) : List Nat :=
  (List.range numTensorIds).filter fun k => (t.kernels_.kernels_ k).isValid

/-- The diagnostic listing as the spec words it: a bracketed,
comma-separated listing of exactly the occupied keys in ascending numeric
order, with the literal CATCH-ALL marker appended last iff the catch-all
is installed. -/
def specListAllDispatchKeys (t : DispatchTable) : String :=
  "[" ++
    commaSeparated ((specOccupiedKeys t).map tensorTypeIdToString ++
      (if t.catchallKernel_.isValid then ["CATCH-ALL"] else [])) ++
  "]"

/-- The tail of a comma-separated listing: every element preceded by the
comma-space separator. -/
def restJoin : List String → String
  | [] => ""
  | x :: xs => ", " ++ x ++ restJoin xs

/-- The separator-and-flag accumulation of the listing loop, abstracted
over the items it emits: append each item, preceded by the comma-space
separator when the flag says something was already emitted. -/
def joinOnto (s : String) (b : Bool) : List String → String
  | [] => s
  | x :: xs => joinOnto ((if b then s ++ ", " else s) ++ x) true xs

/-- The reachable states of a dispatch table: those produced from
construction by any sequence of the five mutating operations. Dispatch
keys passed by callers are TensorTypeId enumerators, hence below
numTensorIds, and registered kernels are actual kernels, hence valid;
failed (aborting) operations produce no successor state. -/
inductive Reachable : DispatchTable → Prop where
  | init (schema : FunctionSchema) : Reachable (DispatchTable.new schema)
  | setKernel {t t2 : DispatchTable} {k : Nat} {f : KernelFunction} :
      Reachable t → k < numTensorIds → f.isValid = true →
      t.setKernel k f = some t2 → Reachable t2
  | removeKernel {t t2 : DispatchTable} {k : Nat} :
      Reachable t → k < numTensorIds →
      t.removeKernelIfExists k = some t2 → Reachable t2
  | setCatchall {t t2 : DispatchTable} {f : KernelFunction} :
      Reachable t → f.isValid = true →
      t.setCatchallKernel f = some t2 → Reachable t2
  | removeCatchall {t t2 : DispatchTable} :
      Reachable t → t.removeCatchallKernel = some t2 → Reachable t2
  | setBoxed {t t2 : DispatchTable} {func : Nat} :
      Reachable t → t.setManuallyBoxedKernel_ func = some t2 → Reachable t2

/-- Fixture: a schema for an operation named add. -/
def schemaAdd : FunctionSchema :=
  { schemaName := "add", extractorInfo := 0 }

/-- Fixture: a freshly constructed table for the add operation. -/
def freshTable : DispatchTable :=
  DispatchTable.new schemaAdd

/-- Fixture: a valid kernel with opaque payload n and no retrofit. -/
def kAt (n : Nat) : KernelFunction :=
  { valid := true, payload := n, boxedKernel := none }

/-- Fixture: the fresh table after registering a kernel at key 1. -/
def exampleT1 : DispatchTable :=
  (freshTable.setKernel 1 (kAt 11)).getD freshTable

/-- Fixture: exampleT1 after registering a kernel at key 4. -/
def exampleT2 : DispatchTable :=
  (exampleT1.setKernel 4 (kAt 44)).getD freshTable

/-- Fixture for the listing claim: a fresh table after registering kernels
at keys 1 and 4 and installing a catch-all. -/
def exampleTable : DispatchTable :=
  (exampleT2.setCatchallKernel (kAt 99)).getD freshTable

/-- Fixture for the retrofit claims: a fresh table after installing a
catch-all kernel and then installing the retrofit. -/
def retroT2 : DispatchTable :=
  ((freshTable.setCatchallKernel (kAt 99)).bind fun t1 =>
    t1.setManuallyBoxedKernel_ 7).getD freshTable

/-- Fixture for the retrofit claims: retroT2 after a further keyed
registration at key 1. -/
def retroT3 : DispatchTable :=
  (retroT2.setKernel 1 (kAt 11)).getD freshTable

/-- Fixture for the one-shot-retrofit claim: a fresh table after one
retrofit installation. -/
def retroOnce : DispatchTable :=
  (freshTable.setManuallyBoxedKernel_ 7).getD freshTable

/-! ### Basic inversion and effect lemmas -/

theorem KernelFunction.isValid_setManuallyBoxed (k : KernelFunction) (func : Nat) :
    (k.setManuallyBoxedKernel_ func).isValid = k.isValid :=
  rfl

theorem KernelFunctionTable.setKernel_eq (tbl : KernelFunctionTable) (k : Nat)
    (f : KernelFunction) (hk : k ≠ undefinedTensorId) :
    tbl.setKernel k f =
      if (tbl.kernels_ k).isValid then
        some (SetKernelResult.OVERWROTE_EXISTING_KERNEL,
          { tbl with kernels_ := Function.update tbl.kernels_ k f })
      else
        some (SetKernelResult.ADDED_NEW_KERNEL,
          { kernels_ := Function.update tbl.kernels_ k f,
            kernelCount_ := tbl.kernelCount_ + 1 }) := by
  unfold KernelFunctionTable.setKernel
  rw [if_neg hk]

theorem KernelFunctionTable.setKernel_inv {tbl tbl2 : KernelFunctionTable} {k : Nat}
    {f : KernelFunction} {r : SetKernelResult}
    (h : tbl.setKernel k f = some (r, tbl2)) :
    k ≠ undefinedTensorId ∧
    tbl2.kernels_ = Function.update tbl.kernels_ k f ∧
    ((tbl.kernels_ k).isValid = true →
      r = SetKernelResult.OVERWROTE_EXISTING_KERNEL ∧
      tbl2.kernelCount_ = tbl.kernelCount_) ∧
    ((tbl.kernels_ k).isValid = false →
      r = SetKernelResult.ADDED_NEW_KERNEL ∧
      tbl2.kernelCount_ = tbl.kernelCount_ + 1) := by
  unfold KernelFunctionTable.setKernel at h
  split at h
  · cases h
  · rename_i hk
    split at h <;> rename_i hv <;>
      simp only [Option.some.injEq, Prod.mk.injEq] at h <;>
      obtain ⟨hr, htbl⟩ := h <;> subst hr <;> subst htbl
    · exact ⟨hk, rfl, fun _ => ⟨rfl, rfl⟩, fun hf => by rw [hv] at hf; cases hf⟩
    · refine ⟨hk, rfl, fun ht => ?_, fun _ => ⟨rfl, rfl⟩⟩
      rw [ht] at hv
      cases hv rfl

theorem DispatchTable.setKernel_split {t t2 : DispatchTable} {k : Nat} {f : KernelFunction}
    (h : t.setKernel k f = some t2) :
    ∃ r tbl2,
      t.kernels_.setKernel k
        (match t.manuallyBoxedKernel_ with
          | some func => f.setManuallyBoxedKernel_ func
          | none => f) = some (r, tbl2) ∧
      t2 = { t with kernels_ := tbl2 } := by
  unfold DispatchTable.setKernel at h
  rcases hx : t.kernels_.setKernel k
      (match t.manuallyBoxedKernel_ with
        | some func => f.setManuallyBoxedKernel_ func
        | none => f) with _ | ⟨r, tbl2⟩ <;>
    rw [hx] at h
  · cases h
  · injection h with h
    refine ⟨r, tbl2, rfl, h.symm⟩

theorem DispatchTable.removeKernelIfExists_eq (t : DispatchTable) (k : Nat) :
    t.removeKernelIfExists k =
      if (t.kernels_.kernels_ k).isValid then
        some { t with kernels_ :=
          { kernels_ := Function.update t.kernels_.kernels_ k KernelFunction.invalid,
            kernelCount_ := t.kernels_.kernelCount_ - 1 } }
      else
        some t := by
  by_cases hv : (t.kernels_.kernels_ k).isValid = true
  · simp [DispatchTable.removeKernelIfExists, KernelFunctionTable.removeKernelIfExists, hv]
  · simp [DispatchTable.removeKernelIfExists, KernelFunctionTable.removeKernelIfExists, hv]

theorem DispatchTable.setCatchallKernel_eq (t : DispatchTable) (f : KernelFunction) :
    t.setCatchallKernel f =
      some { t with catchallKernel_ :=
        match t.manuallyBoxedKernel_ with
        | some func => f.setManuallyBoxedKernel_ func
        | none => f } :=
  rfl

theorem DispatchTable.setBoxed_inv {t t2 : DispatchTable} {func : Nat}
    (h : t.setManuallyBoxedKernel_ func = some t2) :
    t.manuallyBoxedKernel_ = none ∧
    t2 = { t with kernels_ :=
      { t.kernels_ with kernels_ := fun k =>
          if k < numTensorIds ∧ (t.kernels_.kernels_ k).isValid then
            (t.kernels_.kernels_ k).setManuallyBoxedKernel_ func
          else
            t.kernels_.kernels_ k } } := by
  unfold DispatchTable.setManuallyBoxedKernel_ at h
  split at h
  · cases h
  · rename_i hnone
    injection h with h
    exact ⟨Option.not_isSome_iff_eq_none.mp hnone, h.symm⟩

/-! ### Counting occupied slots -/

theorem countP_isValid_update {g : Nat → KernelFunction} {k : Nat} {v : KernelFunction}
    {l : List Nat} (hnd : l.Nodup) (hm : k ∈ l) :
    (l.countP fun i => (Function.update g k v i).isValid) +
      (if (g k).isValid then 1 else 0) =
    (l.countP fun i => (g i).isValid) + (if v.isValid then 1 else 0) := by
  induction l with
  | nil => cases hm
  | cons a tl ih =>
    rw [List.countP_cons, List.countP_cons]
    rcases List.nodup_cons.mp hnd with ⟨ha, hnd2⟩
    by_cases hk : k = a
    · subst hk
      have htl : (tl.countP fun i => (Function.update g k v i).isValid) =
          tl.countP fun i => (g i).isValid := by
        apply List.countP_congr
        intro x hx
        have hxk : x ≠ k := fun he => ha (he ▸ hx)
        rw [Function.update_noteq hxk]
      rw [htl, Function.update_same]
      cases hv : v.isValid <;> cases hg : (g k).isValid <;> simp [hv, hg]
    · have hm2 : k ∈ tl := by
        cases hm with
        | head => exact absurd rfl hk
        | tail _ h => exact h
      rw [Function.update_noteq (Ne.symm hk)]
      have := ih hnd2 hm2
      omega

theorem occupiedCount_update {g : Nat → KernelFunction} {k : Nat}
    {v : KernelFunction} (hk : k < numTensorIds) :
    occupiedCount (Function.update g k v) + (if (g k).isValid then 1 else 0) =
    occupiedCount g + (if v.isValid then 1 else 0) :=
  countP_isValid_update (List.nodup_range numTensorIds) (List.mem_range.mpr hk)

theorem occupiedCount_congr (f g : Nat → KernelFunction)
    (h : ∀ i, i < numTensorIds → (f i).isValid = (g i).isValid) :
    occupiedCount f = occupiedCount g := by
  apply List.countP_congr
  intro x hx
  rw [h x (List.mem_range.mp hx)]

/-! ### Invariants of reachable tables -/

theorem reachable_noRetrofit {t : DispatchTable} (h : Reachable t) :
    t.manuallyBoxedKernel_ = none := by
  induction h with
  | init schema => rfl
  | setKernel hr hk hv hs ih =>
    obtain ⟨r, tbl2, hx, rfl⟩ := DispatchTable.setKernel_split hs
    exact ih
  | removeKernel hr hk hs ih =>
    rw [DispatchTable.removeKernelIfExists_eq] at hs
    split at hs <;> injection hs with hs <;> rw [← hs] <;> exact ih
  | setCatchall hr hv hs ih =>
    rw [DispatchTable.setCatchallKernel_eq] at hs
    injection hs with hs
    rw [← hs]
    exact ih
  | removeCatchall hr hs ih =>
    unfold DispatchTable.removeCatchallKernel at hs
    split at hs
    · injection hs with hs
      rw [← hs]
      exact ih
    · cases hs
  | setBoxed hr hs ih =>
    obtain ⟨hn, rfl⟩ := DispatchTable.setBoxed_inv hs
    exact ih

theorem reachable_undefined_invalid {t : DispatchTable} (h : Reachable t) :
    (t.kernels_.kernels_ undefinedTensorId).isValid = false := by
  induction h with
  | init schema => rfl
  | setKernel hr hk hv hs ih =>
    obtain ⟨r, tbl2, hx, rfl⟩ := DispatchTable.setKernel_split hs
    obtain ⟨hne, hker, _, _⟩ := KernelFunctionTable.setKernel_inv hx
    show (tbl2.kernels_ undefinedTensorId).isValid = false
    rw [hker, Function.update_noteq (Ne.symm hne)]
    exact ih
  | @removeKernel t0 t2 k hr hk hs ih =>
    rw [DispatchTable.removeKernelIfExists_eq] at hs
    split at hs
    · injection hs with hs
      rw [← hs]
      show (Function.update t0.kernels_.kernels_ k KernelFunction.invalid
        undefinedTensorId).isValid = false
      by_cases hke : undefinedTensorId = k
      · rw [hke, Function.update_same]
        rfl
      · rw [Function.update_noteq hke]
        exact ih
    · injection hs with hs
      rw [← hs]
      exact ih
  | setCatchall hr hv hs ih =>
    rw [DispatchTable.setCatchallKernel_eq] at hs
    injection hs with hs
    rw [← hs]
    exact ih
  | removeCatchall hr hs ih =>
    unfold DispatchTable.removeCatchallKernel at hs
    split at hs
    · injection hs with hs
      rw [← hs]
      exact ih
    · cases hs
  | @setBoxed t0 t2 func hr hs ih =>
    obtain ⟨hn, rfl⟩ := DispatchTable.setBoxed_inv hs
    have hcond : ¬(undefinedTensorId < numTensorIds ∧
        (t0.kernels_.kernels_ undefinedTensorId).isValid = true) := by
      rw [ih]
      simp
    show (if undefinedTensorId < numTensorIds ∧
        (t0.kernels_.kernels_ undefinedTensorId).isValid then
          (t0.kernels_.kernels_ undefinedTensorId).setManuallyBoxedKernel_ func
        else
          t0.kernels_.kernels_ undefinedTensorId).isValid = false
    rw [if_neg hcond]
    exact ih

theorem reachable_size_eq {t : DispatchTable} (h : Reachable t) :
    t.kernels_.kernelCount_ = occupiedCount t.kernels_.kernels_ := by
  induction h with
  | init schema => rfl
  | @setKernel t0 t2 k f hr hk hv hs ih =>
    obtain ⟨r, tbl2, hx, rfl⟩ := DispatchTable.setKernel_split hs
    obtain ⟨hne, hker, hcase1, hcase2⟩ := KernelFunctionTable.setKernel_inv hx
    have hfv : (match t0.manuallyBoxedKernel_ with
        | some func => f.setManuallyBoxedKernel_ func
        | none => f).isValid = true := by
      cases t0.manuallyBoxedKernel_ <;>
        simp [KernelFunction.isValid_setManuallyBoxed, hv]
    have hcnt := occupiedCount_update
      (g := t0.kernels_.kernels_) (k := k)
      (v := match t0.manuallyBoxedKernel_ with
        | some func => f.setManuallyBoxedKernel_ func
        | none => f) hk
    rw [hfv] at hcnt
    show tbl2.kernelCount_ = occupiedCount tbl2.kernels_
    rw [hker]
    by_cases hsv : (t0.kernels_.kernels_ k).isValid = true
    · obtain ⟨_, hc⟩ := hcase1 hsv
      rw [hc, ih]
      rw [hsv] at hcnt
      simp at hcnt
      omega
    · have hsv2 : (t0.kernels_.kernels_ k).isValid = false :=
        Bool.eq_false_iff.mpr hsv
      obtain ⟨_, hc⟩ := hcase2 hsv2
      rw [hc, ih]
      rw [hsv2] at hcnt
      simp at hcnt
      omega
  | @removeKernel t0 t2 k hr hk hs ih =>
    rw [DispatchTable.removeKernelIfExists_eq] at hs
    split at hs
    · rename_i hsv
      injection hs with hs
      rw [← hs]
      show t0.kernels_.kernelCount_ - 1 =
        occupiedCount (Function.update t0.kernels_.kernels_ k KernelFunction.invalid)
      have hcnt := occupiedCount_update
        (g := t0.kernels_.kernels_) (k := k) (v := KernelFunction.invalid) hk
      rw [hsv] at hcnt
      have hinv : KernelFunction.invalid.isValid = false := rfl
      rw [hinv] at hcnt
      simp at hcnt
      rw [ih]
      omega
    · injection hs with hs
      rw [← hs]
      exact ih
  | setCatchall hr hv hs ih =>
    rw [DispatchTable.setCatchallKernel_eq] at hs
    injection hs with hs
    rw [← hs]
    exact ih
  | removeCatchall hr hs ih =>
    unfold DispatchTable.removeCatchallKernel at hs
    split at hs
    · injection hs with hs
      rw [← hs]
      exact ih
    · cases hs
  | @setBoxed t0 t2 func hr hs ih =>
    obtain ⟨hn, rfl⟩ := DispatchTable.setBoxed_inv hs
    show t0.kernels_.kernelCount_ = occupiedCount (fun k =>
      if k < numTensorIds ∧ (t0.kernels_.kernels_ k).isValid then
        (t0.kernels_.kernels_ k).setManuallyBoxedKernel_ func
      else
        t0.kernels_.kernels_ k)
    rw [occupiedCount_congr
      (fun k =>
        if k < numTensorIds ∧ (t0.kernels_.kernels_ k).isValid then
          (t0.kernels_.kernels_ k).setManuallyBoxedKernel_ func
        else
          t0.kernels_.kernels_ k)
      t0.kernels_.kernels_ ?_]
    · exact ih
    · intro i hi
      show (if i < numTensorIds ∧ (t0.kernels_.kernels_ i).isValid then
          (t0.kernels_.kernels_ i).setManuallyBoxedKernel_ func
        else
          t0.kernels_.kernels_ i).isValid = (t0.kernels_.kernels_ i).isValid
      by_cases hc : (t0.kernels_.kernels_ i).isValid = true
      · rw [if_pos ⟨hi, hc⟩]
        exact KernelFunction.isValid_setManuallyBoxed _ _
      · rw [if_neg]
        intro hcon
        exact hc hcon.2

/-! ### The diagnostic listing -/

theorem commaSeparated_cons (x : String) (xs : List String) :
    commaSeparated (x :: xs) = x ++ restJoin xs := by
  induction xs generalizing x with
  | nil => simp [commaSeparated, restJoin]
  | cons y ys ih =>
    show x ++ ", " ++ commaSeparated (y :: ys) = x ++ restJoin (y :: ys)
    rw [ih y]
    simp [restJoin, String.append_assoc]

theorem restJoin_append (xs ys : List String) :
    restJoin (xs ++ ys) = restJoin xs ++ restJoin ys := by
  induction xs with
  | nil => simp [restJoin]
  | cons x tl ih => simp [restJoin, ih, String.append_assoc]

theorem joinOnto_true (xs : List String) : ∀ s : String,
    joinOnto s true xs = s ++ restJoin xs := by
  induction xs with
  | nil =>
    intro s
    simp [joinOnto, restJoin]
  | cons x tl ih =>
    intro s
    show joinOnto ((s ++ ", ") ++ x) true tl = s ++ restJoin (x :: tl)
    rw [ih]
    simp [restJoin, String.append_assoc]

theorem joinOnto_false (xs : List String) (s : String) :
    joinOnto s false xs = s ++ commaSeparated xs := by
  cases xs with
  | nil => simp [joinOnto, commaSeparated]
  | cons x tl =>
    show joinOnto (s ++ x) true tl = s ++ commaSeparated (x :: tl)
    rw [joinOnto_true, commaSeparated_cons, String.append_assoc]

theorem commaSeparated_snoc (x : String) (xs : List String) (y : String) :
    commaSeparated ((x :: xs) ++ [y]) = commaSeparated (x :: xs) ++ ", " ++ y := by
  show commaSeparated (x :: (xs ++ [y])) = _
  rw [commaSeparated_cons, commaSeparated_cons, restJoin_append]
  simp [restJoin, String.append_assoc]

theorem foldl_listStep (p : Nat → Bool) (d : Nat → String) (l : List Nat) :
    ∀ (s : String) (b : Bool),
    (l.foldl
      (fun acc k =>
        if p k then ((if acc.2 then acc.1 ++ ", " else acc.1) ++ d k, true)
        else acc)
      (s, b)) =
    (joinOnto s b ((l.filter p).map d), b || !(l.filter p).isEmpty) := by
  induction l with
  | nil =>
    intro s b
    simp [joinOnto]
  | cons a tl ih =>
    intro s b
    by_cases hp : p a = true
    · rw [List.foldl_cons]
      simp only [hp, if_true]
      rw [ih, List.filter_cons_of_pos hp]
      simp [joinOnto]
    · have hp2 : p a = false := Bool.eq_false_iff.mpr hp
      rw [List.foldl_cons]
      simp only [hp2, Bool.false_eq_true, if_false]
      rw [ih, List.filter_cons_of_neg]
      rw [hp2]
      simp

theorem listAllDispatchKeys_eq_spec (t : DispatchTable) :
    t.listAllDispatchKeys = specListAllDispatchKeys t := by
  unfold DispatchTable.listAllDispatchKeys specListAllDispatchKeys
    specOccupiedKeys appendCatchallMarker
  rw [foldl_listStep]
  by_cases hc : t.catchallKernel_.isValid = true
  · simp only [hc, if_true]
    cases hfil : (List.range numTensorIds).filter (fun k =>
        (t.kernels_.kernels_ k).isValid) with
    | nil => simp [joinOnto, commaSeparated, String.append_assoc]
    | cons a ks =>
      simp only [List.isEmpty_cons, Bool.not_false, Bool.false_or, if_true]
      rw [List.map_cons, commaSeparated_snoc, joinOnto_false]
      simp [String.append_assoc]
  · simp only [hc, if_false]
    rw [joinOnto_false]
    simp [String.append_assoc]

/-! ### Reachability of the fixtures and further consequences -/

theorem freshTable_reachable : Reachable freshTable :=
  Reachable.init schemaAdd

theorem exampleT1_reachable : Reachable exampleT1 :=
  Reachable.setKernel (k := 1) (f := kAt 11) freshTable_reachable
    (by decide) rfl rfl

theorem exampleT2_reachable : Reachable exampleT2 :=
  Reachable.setKernel (k := 4) (f := kAt 44) exampleT1_reachable
    (by decide) rfl rfl

theorem exampleTable_reachable : Reachable exampleTable :=
  Reachable.setCatchall (f := kAt 99) exampleT2_reachable rfl rfl

theorem occupiedCount_pos {g : Nat → KernelFunction} {k : Nat}
    (hk : k < numTensorIds) (hv : (g k).isValid = true) :
    0 < occupiedCount g := by
  unfold occupiedCount
  rw [List.countP_pos_iff]
  exact ⟨k, List.mem_range.mpr hk, hv⟩

theorem lookup_after_set (t : DispatchTable) (k : Nat) (f : KernelFunction)
    (hbox : t.manuallyBoxedKernel_ = none) (hk : k ≠ undefinedTensorId)
    (hv : f.isValid = true) :
    ∃ t2, t.setKernel k f = some t2 ∧ t2.lookup k = some f ∧
      (t2.kernels_.kernels_ k).isValid = true := by
  rcases hx : t.kernels_.setKernel k f with _ | ⟨r, tbl2⟩
  · rw [KernelFunctionTable.setKernel_eq t.kernels_ k f hk] at hx
    split at hx <;> cases hx
  · obtain ⟨hne, hker, _, _⟩ := KernelFunctionTable.setKernel_inv hx
    refine ⟨{ t with kernels_ := tbl2 }, ?_, ?_, ?_⟩
    · unfold DispatchTable.setKernel
      simp only [hbox]
      rw [hx]
    · unfold DispatchTable.lookup
      show (if (tbl2.kernels_ k).isValid then some (tbl2.kernels_ k)
        else none) = some f
      rw [hker, Function.update_same, hv]
      simp
    · show (tbl2.kernels_ k).isValid = true
      rw [hker, Function.update_same]
      exact hv

/-! ### Claim theorems -/

/-- C1: evaluation of the retrofit installation on the embedded code. On a
fresh table, after installing a catch-all kernel, setManuallyBoxedKernel_
succeeds, but the already-registered catch-all kernel does not receive the
boxed-kernel pointer, the adapter is not recorded in manuallyBoxedKernel_,
and a kernel registered afterwards at key 1 is stored and returned by
lookup without the pointer: the code propagates the retrofit neither to
the existing catch-all nor to later registrations, against the claim. -/
theorem C1_retrofit_propagation_eval :
    (freshTable.setCatchallKernel (kAt 99)).bind
        (fun t1 => t1.setManuallyBoxedKernel_ 7) = some retroT2 ∧
    retroT2.catchallKernel_ = kAt 99 ∧
    (kAt 99).boxedKernel = none ∧
    retroT2.manuallyBoxedKernel_ = none ∧
    retroT2.setKernel 1 (kAt 11) = some retroT3 ∧
    retroT3.lookup 1 = some (kAt 11) ∧
    (kAt 11).boxedKernel = none :=
  ⟨rfl, rfl, rfl, rfl, rfl, by decide, rfl⟩

/-- C2: on the embedded code a second retrofit installation is not fatal.
After one successful setManuallyBoxedKernel_ call on a fresh table the
manuallyBoxedKernel_ field is still absent, because the source never
assigns it; hence the assertion guarding a second call cannot fire and the
second call also returns a successor state instead of aborting, against
the claim that the second call is fatal. -/
theorem C2_retrofit_twice_eval :
    freshTable.setManuallyBoxedKernel_ 7 = some retroOnce ∧
    retroOnce.manuallyBoxedKernel_ = none ∧
    (retroOnce.setManuallyBoxedKernel_ 7).isSome = true :=
  ⟨rfl, rfl, rfl⟩

/-- C3 counterexample: passing the undefined sentinel key to
removeKernelIfExists on a fresh table is not fatal: the call returns the
unchanged table, and the slot map reports KERNEL_DIDNT_EXIST, instead of
aborting; so the part of the claim that says the sentinel passed to
removeKernelIfExists is rejected as fatal is false. -/
theorem C3_remove_sentinel_counterexample :
    freshTable.removeKernelIfExists undefinedTensorId = some freshTable ∧
    freshTable.kernels_.removeKernelIfExists undefinedTensorId =
      some (RemoveKernelIfExistsResult.KERNEL_DIDNT_EXIST, freshTable.kernels_) :=
  ⟨rfl, rfl⟩

/-- C3 amended: setKernel rejects the undefined sentinel fatally for every
table and kernel (no successor state is produced, so the table state is
unchanged), while removeKernelIfExists accepts the sentinel and processes
it as an ordinary key: on every reachable table the sentinel slot is
unoccupied, so the call is a tolerated no-op that returns the unchanged
table with the slot map reporting KERNEL_DIDNT_EXIST, and is never
fatal. -/
theorem C3_sentinel_amended (t : DispatchTable) (f : KernelFunction) :
    t.setKernel undefinedTensorId f = none ∧
    (Reachable t →
      t.removeKernelIfExists undefinedTensorId = some t ∧
      t.kernels_.removeKernelIfExists undefinedTensorId =
        some (RemoveKernelIfExistsResult.KERNEL_DIDNT_EXIST, t.kernels_)) := by
  constructor
  · unfold DispatchTable.setKernel KernelFunctionTable.setKernel
    simp
  · intro hr
    have hinv := reachable_undefined_invalid hr
    constructor
    · simp [DispatchTable.removeKernelIfExists_eq, hinv]
    · simp [KernelFunctionTable.removeKernelIfExists, hinv]

/-- C3 witness: the amended statement instantiated on the fresh table. -/
theorem C3_sentinel_amended_witness :
    freshTable.setKernel undefinedTensorId (kAt 11) = none ∧
    (Reachable freshTable →
      freshTable.removeKernelIfExists undefinedTensorId = some freshTable ∧
      freshTable.kernels_.removeKernelIfExists undefinedTensorId =
        some (RemoveKernelIfExistsResult.KERNEL_DIDNT_EXIST,
          freshTable.kernels_)) :=
  C3_sentinel_amended freshTable (kAt 11)

/-- C4: for every table state, listAllDispatchKeys produces exactly the
spec-side listing (bracketed, comma-separated, occupied keys in ascending
numeric order, the literal CATCH-ALL marker last iff the catch-all is
valid); in particular on the fixture with occupied keys 1 and 4 and an
installed catch-all it returns the literal text shown. -/
theorem C4_listAllDispatchKeys :
    (∀ t : DispatchTable, t.listAllDispatchKeys = specListAllDispatchKeys t) ∧
    specOccupiedKeys exampleTable = [1, 4] ∧
    exampleTable.catchallKernel_.isValid = true ∧
    exampleTable.listAllDispatchKeys = "[1, 4, CATCH-ALL]" :=
  ⟨listAllDispatchKeys_eq_spec, by decide, rfl, by decide⟩

/-- C5: in every reachable table state the slot-map size equals the number
of occupied keyed slots, independent of the catch-all state (which does
not occur in the equality); since Reachable is closed under setKernel,
removeKernelIfExists, setCatchallKernel, removeCatchallKernel and
setManuallyBoxedKernel_, every operation preserves the equality. -/
theorem C5_size_invariant (t : DispatchTable) (h : Reachable t) :
    t.kernels_.size = occupiedCount t.kernels_.kernels_ :=
  reachable_size_eq h

/-- C5 witness: the invariant evaluated on a concrete reachable table with
two occupied slots. -/
theorem C5_size_invariant_witness :
    exampleTable.kernels_.size = occupiedCount exampleTable.kernels_.kernels_ :=
  C5_size_invariant exampleTable exampleTable_reachable

/-- C6: set/lookup round-trip with last-write-wins on every reachable
table: for a valid (non-sentinel) key and a valid kernel, table-level
setKernel succeeds and lookup returns exactly the registered kernel on an
occupied slot; at the slot-map level the call reports ADDED_NEW_KERNEL
precisely when the slot was previously empty, and any setKernel on a key
whose slot is occupied reports OVERWROTE_EXISTING_KERNEL. -/
theorem C6_set_lookup_roundtrip (t : DispatchTable) (k : Nat)
    (f : KernelFunction) (hr : Reachable t) (hk : k ≠ undefinedTensorId)
    (hv : f.isValid = true) :
    (∃ t2, t.setKernel k f = some t2 ∧ t2.lookup k = some f ∧
      (t2.kernels_.kernels_ k).isValid = true) ∧
    ((t.kernels_.kernels_ k).isValid = false →
      ∃ tbl2, t.kernels_.setKernel k f =
        some (SetKernelResult.ADDED_NEW_KERNEL, tbl2)) ∧
    ((t.kernels_.kernels_ k).isValid = true → ∀ g : KernelFunction,
      ∃ tbl2, t.kernels_.setKernel k g =
        some (SetKernelResult.OVERWROTE_EXISTING_KERNEL, tbl2)) := by
  refine ⟨lookup_after_set t k f (reachable_noRetrofit hr) hk hv, ?_, ?_⟩
  · intro hsv
    rw [KernelFunctionTable.setKernel_eq t.kernels_ k f hk,
      if_neg (by simp [hsv])]
    exact ⟨_, rfl⟩
  · intro hsv g
    rw [KernelFunctionTable.setKernel_eq t.kernels_ k g hk, if_pos hsv]
    exact ⟨_, rfl⟩

/-- C6 witness: the round-trip instantiated on the fresh table at key 1
(previously empty slot). -/
theorem C6_set_lookup_roundtrip_witness :
    (∃ t2, freshTable.setKernel 1 (kAt 11) = some t2 ∧
      t2.lookup 1 = some (kAt 11) ∧
      (t2.kernels_.kernels_ 1).isValid = true) ∧
    ((freshTable.kernels_.kernels_ 1).isValid = false →
      ∃ tbl2, freshTable.kernels_.setKernel 1 (kAt 11) =
        some (SetKernelResult.ADDED_NEW_KERNEL, tbl2)) ∧
    ((freshTable.kernels_.kernels_ 1).isValid = true → ∀ g : KernelFunction,
      ∃ tbl2, freshTable.kernels_.setKernel 1 g =
        some (SetKernelResult.OVERWROTE_EXISTING_KERNEL, tbl2)) :=
  C6_set_lookup_roundtrip freshTable 1 (kAt 11) freshTable_reachable
    (by decide) rfl

/-- C7: removal semantics for every reachable table and every dispatch
key: the call never fails; on an unoccupied slot the slot map reports
KERNEL_DIDNT_EXIST and the table, hence size, is unchanged; on an occupied
slot it reports REMOVED_KERNEL, the size drops by exactly one, and a
subsequent lookup of the key reports absence. -/
theorem C7_removeKernelIfExists (t : DispatchTable) (k : Nat)
    (hr : Reachable t) (hk : k < numTensorIds) :
    (t.removeKernelIfExists k).isSome = true ∧
    ((t.kernels_.kernels_ k).isValid = false →
      t.kernels_.removeKernelIfExists k =
        some (RemoveKernelIfExistsResult.KERNEL_DIDNT_EXIST, t.kernels_) ∧
      t.removeKernelIfExists k = some t) ∧
    ((t.kernels_.kernels_ k).isValid = true →
      ∃ t2, t.removeKernelIfExists k = some t2 ∧
        (t.kernels_.removeKernelIfExists k).map Prod.fst =
          some RemoveKernelIfExistsResult.REMOVED_KERNEL ∧
        t2.kernels_.size + 1 = t.kernels_.size ∧
        t2.lookup k = none) := by
  refine ⟨?_, ?_, ?_⟩
  · rw [DispatchTable.removeKernelIfExists_eq]
    split <;> rfl
  · intro hsv
    constructor
    · simp [KernelFunctionTable.removeKernelIfExists, hsv]
    · simp [DispatchTable.removeKernelIfExists_eq, hsv]
  · intro hsv
    refine ⟨{ t with kernels_ :=
      { kernels_ := Function.update t.kernels_.kernels_ k KernelFunction.invalid,
        kernelCount_ := t.kernels_.kernelCount_ - 1 } }, ?_, ?_, ?_, ?_⟩
    · rw [DispatchTable.removeKernelIfExists_eq, if_pos hsv]
    · simp [KernelFunctionTable.removeKernelIfExists, hsv]
    · have hcnt := reachable_size_eq hr
      have hpos := occupiedCount_pos hk hsv
      show (t.kernels_.kernelCount_ - 1) + 1 = t.kernels_.kernelCount_
      omega
    · show (if (Function.update t.kernels_.kernels_ k KernelFunction.invalid
          k).isValid then
            some (Function.update t.kernels_.kernels_ k KernelFunction.invalid k)
          else none) = none
      rw [Function.update_same]
      rfl

/-- C7 witness: removal instantiated on the reachable fixture with
occupied key 1, and its hypotheses discharged there. -/
theorem C7_removeKernelIfExists_witness :
    (exampleTable.removeKernelIfExists 1).isSome = true ∧
    ((exampleTable.kernels_.kernels_ 1).isValid = false →
      exampleTable.kernels_.removeKernelIfExists 1 =
        some (RemoveKernelIfExistsResult.KERNEL_DIDNT_EXIST,
          exampleTable.kernels_) ∧
      exampleTable.removeKernelIfExists 1 = some exampleTable) ∧
    ((exampleTable.kernels_.kernels_ 1).isValid = true →
      ∃ t2, exampleTable.removeKernelIfExists 1 = some t2 ∧
        (exampleTable.kernels_.removeKernelIfExists 1).map Prod.fst =
          some RemoveKernelIfExistsResult.REMOVED_KERNEL ∧
        t2.kernels_.size + 1 = exampleTable.kernels_.size ∧
        t2.lookup 1 = none) :=
  C7_removeKernelIfExists exampleTable 1 exampleTable_reachable (by decide)

/-- C8: removeCatchallKernel aborts (returns none) exactly when no valid
catch-all is installed; when one is installed it returns the table with
the catch-all slot cleared, on which lookupCatchallKernel reports
absence. -/
theorem C8_removeCatchallKernel (t : DispatchTable) :
    (t.catchallKernel_.isValid = false → t.removeCatchallKernel = none) ∧
    (t.catchallKernel_.isValid = true →
      ∃ t2, t.removeCatchallKernel = some t2 ∧
        t2.lookupCatchallKernel = none ∧
        t2.catchallKernel_.isValid = false) := by
  constructor
  · intro h
    unfold DispatchTable.removeCatchallKernel
    rw [if_neg (by simp [h])]
  · intro h
    refine ⟨{ t with catchallKernel_ := KernelFunction.invalid }, ?_, rfl, rfl⟩
    unfold DispatchTable.removeCatchallKernel
    rw [if_pos h]

/-- C8 witness: catch-all removal instantiated on the fixture that has a
valid catch-all installed. -/
theorem C8_removeCatchallKernel_witness :
    (exampleTable.catchallKernel_.isValid = false →
      exampleTable.removeCatchallKernel = none) ∧
    (exampleTable.catchallKernel_.isValid = true →
      ∃ t2, exampleTable.removeCatchallKernel = some t2 ∧
        t2.lookupCatchallKernel = none ∧
        t2.catchallKernel_.isValid = false) :=
  C8_removeCatchallKernel exampleTable

/-- C9: in every table state, isEmpty returns true exactly when the slot
map size is zero and no valid catch-all kernel is installed. -/
theorem C9_isEmpty (t : DispatchTable) :
    t.isEmpty = true ↔
      (t.kernels_.size = 0 ∧ t.catchallKernel_.isValid = false) := by
  unfold DispatchTable.isEmpty
  cases hc : t.catchallKernel_.isValid <;> simp [hc, and_comm]

/-- C9 witness: the equivalence instantiated on the fresh table. -/
theorem C9_isEmpty_witness :
    freshTable.isEmpty = true ↔
      (freshTable.kernels_.size = 0 ∧
        freshTable.catchallKernel_.isValid = false) :=
  C9_isEmpty freshTable

/-- C10: framing. For every table, keyed mutations at key k leave every
other keyed slot j and the catch-all slot unchanged, and the catch-all
mutations leave the whole slot map (hence the size) unchanged. -/
theorem C10_frame (t : DispatchTable) (k j : Nat) (f g : KernelFunction)
    (hjk : j ≠ k) :
    (∀ t2, t.setKernel k f = some t2 →
      t2.kernels_.kernels_ j = t.kernels_.kernels_ j ∧
      t2.catchallKernel_ = t.catchallKernel_) ∧
    (∀ t2, t.removeKernelIfExists k = some t2 →
      t2.kernels_.kernels_ j = t.kernels_.kernels_ j ∧
      t2.catchallKernel_ = t.catchallKernel_) ∧
    (∀ t2, t.setCatchallKernel g = some t2 →
      t2.kernels_ = t.kernels_ ∧ t2.kernels_.size = t.kernels_.size) ∧
    (∀ t2, t.removeCatchallKernel = some t2 →
      t2.kernels_ = t.kernels_ ∧ t2.kernels_.size = t.kernels_.size) := by
  refine ⟨?_, ?_, ?_, ?_⟩
  · intro t2 hs
    obtain ⟨r, tbl2, hx, rfl⟩ := DispatchTable.setKernel_split hs
    obtain ⟨hne, hker, _, _⟩ := KernelFunctionTable.setKernel_inv hx
    constructor
    · show tbl2.kernels_ j = t.kernels_.kernels_ j
      rw [hker]
      exact Function.update_noteq hjk _ _
    · rfl
  · intro t2 hs
    rw [DispatchTable.removeKernelIfExists_eq] at hs
    split at hs <;> injection hs with hs <;> rw [← hs]
    · constructor
      · show Function.update t.kernels_.kernels_ k KernelFunction.invalid j =
          t.kernels_.kernels_ j
        exact Function.update_noteq hjk _ _
      · rfl
    · exact ⟨rfl, rfl⟩
  · intro t2 hs
    rw [DispatchTable.setCatchallKernel_eq] at hs
    injection hs with hs
    rw [← hs]
    exact ⟨rfl, rfl⟩
  · intro t2 hs
    unfold DispatchTable.removeCatchallKernel at hs
    split at hs
    · injection hs with hs
      rw [← hs]
      exact ⟨rfl, rfl⟩
    · cases hs

/-- C10 witness: framing instantiated on the fixture table at keys 1 and
2. -/
theorem C10_frame_witness :
    (∀ t2, exampleTable.setKernel 1 (kAt 5) = some t2 →
      t2.kernels_.kernels_ 2 = exampleTable.kernels_.kernels_ 2 ∧
      t2.catchallKernel_ = exampleTable.catchallKernel_) ∧
    (∀ t2, exampleTable.removeKernelIfExists 1 = some t2 →
      t2.kernels_.kernels_ 2 = exampleTable.kernels_.kernels_ 2 ∧
      t2.catchallKernel_ = exampleTable.catchallKernel_) ∧
    (∀ t2, exampleTable.setCatchallKernel (kAt 6) = some t2 →
      t2.kernels_ = exampleTable.kernels_ ∧
      t2.kernels_.size = exampleTable.kernels_.size) ∧
    (∀ t2, exampleTable.removeCatchallKernel = some t2 →
      t2.kernels_ = exampleTable.kernels_ ∧
      t2.kernels_.size = exampleTable.kernels_.size) :=
  C10_frame exampleTable 1 2 (kAt 5) (kAt 6) (by decide)
